import Mathlib

/-!
Verification of the client-authentication subsystem
(`crates/axum-utils/src/client_authorization.rs`).

The Rust code is shallowly embedded: pure control flow is translated to
Lean functions, fallible operations return `Except`, and the external
collaborators (the secret decrypter, the JWT primitive, the HTTP client)
are passed in as explicit function parameters, mirroring how the Rust
code receives them as arguments (`encrypter`, `http_client`) or calls
into external crates (`mas_jose`).
-/

namespace ClientAuthz

/-- The fixed JWT-bearer client-assertion-type URN
(`JWT_BEARER_CLIENT_ASSERTION` in the source). -/
def JWT_BEARER_CLIENT_ASSERTION : String :=
  "urn:ietf:params:oauth:client-assertion-type:jwt-bearer"

/-- A JSON value, as far as the resolver inspects it: the code only
distinguishes `Value::String` from every other shape of value when it
reads the JWT `sub` claim (`serde_json::Value`, restricted to the
scalar shapes this module can observe). -/
inductive JsonValue
  | null
  | bool (b : Bool)
  | num (n : Int)
  | str (s : String)
deriving DecidableEq

/-- A parsed JWT with its claim map retained
(`Jwt<'static, HashMap<String, serde_json::Value>>`); the claim map is
an association list and `payload.lookup` models `jwt.payload().get`. -/
structure Jwt where
  payload : List (String × JsonValue)
deriving DecidableEq

/-- The four credential variants (`enum Credentials` in the source). -/
inductive Credentials
  | None (client_id : String)
  | ClientSecretBasic (client_id : String) (client_secret : String)
  | ClientSecretPost (client_id : String) (client_secret : String)
  | ClientAssertionJwtBearer (client_id : String) (jwt : Jwt)
deriving DecidableEq

/-- `Credentials::client_id`. -/
def Credentials.client_id : Credentials → String
  | .None client_id => client_id
  | .ClientSecretBasic client_id _ => client_id
  | .ClientSecretPost client_id _ => client_id
  | .ClientAssertionJwtBearer client_id _ => client_id

/-- The declared client authentication method
(`mas_iana::oauth::OAuthClientAuthenticationMethod`, restricted to the
five methods this module handles per the data model). -/
inductive OAuthClientAuthenticationMethod
  | None
  | ClientSecretBasic
  | ClientSecretPost
  | ClientSecretJwt
  | PrivateKeyJwt
deriving DecidableEq

/-- A JSON Web Key Set (`mas_jose::jwk::PublicJsonWebKeySet`), opaque
to this module beyond equality. -/
structure PublicJsonWebKeySet where
  keys : List String
deriving DecidableEq

/-- `mas_data_model::JwksOrJwksUri`: a client's JWKS source, inline or
by URI. -/
inductive JwksOrJwksUri
  | Jwks (j : PublicJsonWebKeySet)
  | JwksUri (u : String)
deriving DecidableEq

/-- The stored client record (`mas_data_model::Client`), restricted to
the fields this module reads plus the identity field. -/
structure Client where
  client_id : String
  encrypted_client_secret : Option String
  jwks : Option JwksOrJwksUri
deriving DecidableEq

/-- `enum CredentialsVerificationError`. `JwksFetchFailed` carries its
boxed underlying cause, modelled as an opaque string description. -/
inductive CredentialsVerificationError
  | DecryptionError
  | InvalidClientConfig
  | ClientSecretMismatch
  | AuthenticationMethodMismatch
  | InvalidAssertionSignature
  | JwksFetchFailed (cause : String)
deriving DecidableEq

/-- `CredentialsVerificationError::is_internal`. -/
def CredentialsVerificationError.is_internal : CredentialsVerificationError → Bool
  | .DecryptionError => true
  | .InvalidClientConfig => true
  | .JwksFetchFailed _ => true
  | .ClientSecretMismatch => false
  | .AuthenticationMethodMismatch => false
  | .InvalidAssertionSignature => false

/-- The UTF-8 bytes of a string (`str::as_bytes` on the presented
secret; the decrypted secret is already a byte vector). -/
def strBytes (s : String) : List UInt8 := s.toUTF8.data.toList

/-- The external collaborators `Credentials::verify` calls into: the
`Encrypter` (`decrypt_string`, returning plaintext bytes or failing),
the HTTP client used by `fetch_jwks` (a single GET returning a parsed
key set or an opaque failure cause), and the two signature-verification
primitives of `mas_jose` (`verify_with_jwks`,
`verify_with_shared_secret`). -/
structure VerifyCtx where
  decrypt_string : String → Option (List UInt8)
  http_get_jwks : String → Except String PublicJsonWebKeySet
  verify_with_jwks : Jwt → PublicJsonWebKeySet → Bool
  verify_with_shared_secret : Jwt → List UInt8 → Bool

/-- `fetch_jwks`: an inline key set is returned directly; a URI is
fetched over the network, any failure surfacing as the `Except` error
(the source chains network send, status check and body parse, all
collapsing into one opaque `BoxError`). -/
def fetch_jwks (ctx : VerifyCtx) (jwks : JwksOrJwksUri) : Except String PublicJsonWebKeySet :=
  match jwks with
  | .Jwks j => .ok j
  | .JwksUri u => ctx.http_get_jwks u

/-- `Credentials::verify`: the method-specific check, dispatched on the
(credential shape, declared method) pair exactly as the Rust `match`. -/
def Credentials.verify (self : Credentials) (ctx : VerifyCtx)
    (method : OAuthClientAuthenticationMethod) (client : Client) :
    Except CredentialsVerificationError Unit :=
  match self, method with
  | .None _, .None => .ok ()
  | .ClientSecretPost _ client_secret, .ClientSecretPost
  | .ClientSecretBasic _ client_secret, .ClientSecretBasic =>
    match client.encrypted_client_secret with
    | Option.none => .error .InvalidClientConfig
    | Option.some encrypted_client_secret =>
      match ctx.decrypt_string encrypted_client_secret with
      | Option.none => .error .DecryptionError
      | Option.some decrypted_client_secret =>
        if strBytes client_secret ≠ decrypted_client_secret then
          .error .ClientSecretMismatch
        else
          .ok ()
  | .ClientAssertionJwtBearer _ jwt, .PrivateKeyJwt =>
    match client.jwks with
    | Option.none => .error .InvalidClientConfig
    | Option.some jwks =>
      match fetch_jwks ctx jwks with
      | .error cause => .error (.JwksFetchFailed cause)
      | .ok jwks =>
        if ctx.verify_with_jwks jwt jwks then .ok ()
        else .error .InvalidAssertionSignature
  | .ClientAssertionJwtBearer _ jwt, .ClientSecretJwt =>
    match client.encrypted_client_secret with
    | Option.none => .error .InvalidClientConfig
    | Option.some encrypted_client_secret =>
      match ctx.decrypt_string encrypted_client_secret with
      | Option.none => .error .DecryptionError
      | Option.some decrypted_client_secret =>
        if ctx.verify_with_shared_secret jwt decrypted_client_secret then .ok ()
        else .error .InvalidAssertionSignature
  | _, _ => .error .AuthenticationMethodMismatch

/-- `enum ClientAuthorizationError`. The boxed sources (`BadForm`'s
deserialization complaint, `Internal`'s cause) are opaque strings. -/
inductive ClientAuthorizationError
  | InvalidHeader
  | BadForm (err : String)
  | ClientIdMismatch (credential : String) (form : String)
  | UnsupportedClientAssertion (client_assertion_type : String)
  | MissingCredentials
  | InvalidRequest
  | InvalidAssertion
  | Internal (err : String)
deriving DecidableEq

/-- `struct ClientAuthorization<F>`. -/
structure ClientAuthorization (F : Type) where
  credentials : Credentials
  form : Option F
deriving DecidableEq

/-- The outcome of `TypedHeader::<Authorization<Basic>>::from_request_parts`:
header absent, present but unparseable, or a decoded username/password
pair. -/
inductive HeaderResult
  | Missing
  | Malformed
  | Valid (username : String) (password : String)
deriving DecidableEq

/-- The outcome of `Form::<AuthorizedForm<F>>::from_request`: a parsed
form carrying the four optional credential fields and the flattened
residual payload, or one of the three rejection shapes the source
distinguishes. -/
inductive FormOutcome (F : Type)
  | Parsed (client_id : Option String) (client_secret : Option String)
      (client_assertion_type : Option String) (client_assertion : Option String)
      (inner : F)
  | InvalidFormContentType
  | FailedToDeserializeForm (err : String)
  | OtherRejection (err : String)
deriving DecidableEq

/-- Header handling from `from_request` (lines 366–378): a missing
header is fine, any other rejection is `InvalidHeader`. -/
def credentialsFromHeader :
    HeaderResult → Except ClientAuthorizationError (Option (String × String))
  | .Missing => .ok Option.none
  | .Malformed => .error .InvalidHeader
  | .Valid username password => .ok (Option.some (username, password))

/-- Form handling from `from_request` (lines 384–406): a non-form
content type yields all-absent fields, a deserialization failure is
`BadForm` preserving the complaint, any other rejection is `Internal`. -/
def formFields {F : Type} :
    FormOutcome F →
    Except ClientAuthorizationError
      (Option String × Option String × Option String × Option String × Option F)
  | .Parsed client_id client_secret client_assertion_type client_assertion inner =>
    .ok (client_id, client_secret, client_assertion_type, client_assertion, Option.some inner)
  | .InvalidFormContentType =>
    .ok (Option.none, Option.none, Option.none, Option.none, Option.none)
  | .FailedToDeserializeForm err => .error (.BadForm err)
  | .OtherRejection err => .error (.Internal err)

/-- The credential decision table from `from_request` (lines 409–495):
the Rust `match` over the five optional values, arms in source order
(the assertion-type guard becomes the inner `if`, whose failure falls
through to the later arms exactly as in Rust). `parseJwt` is
`Jwt::try_from` of `mas_jose`, external to this module. -/
def resolveCredentials (parseJwt : String → Option Jwt)
    (credentials_from_header : Option (String × String))
    (client_id_from_form : Option String) (client_secret_from_form : Option String)
    (client_assertion_type : Option String) (client_assertion : Option String) :
    Except ClientAuthorizationError Credentials :=
  match credentials_from_header, client_id_from_form, client_secret_from_form,
      client_assertion_type, client_assertion with
  | Option.some (client_id, client_secret), client_id_from_form,
      Option.none, Option.none, Option.none =>
    match client_id_from_form with
    | Option.some client_id_from_form =>
      if client_id ≠ client_id_from_form then
        .error (.ClientIdMismatch client_id client_id_from_form)
      else
        .ok (.ClientSecretBasic client_id client_secret)
    | Option.none => .ok (.ClientSecretBasic client_id client_secret)
  | Option.none, Option.some client_id, Option.some client_secret,
      Option.none, Option.none =>
    .ok (.ClientSecretPost client_id client_secret)
  | Option.none, Option.some client_id, Option.none, Option.none, Option.none =>
    .ok (.None client_id)
  | Option.none, client_id_from_form, Option.none,
      Option.some client_assertion_type, Option.some client_assertion =>
    if client_assertion_type = JWT_BEARER_CLIENT_ASSERTION then
      match parseJwt client_assertion with
      | Option.none => .error .InvalidAssertion
      | Option.some jwt =>
        match jwt.payload.lookup "sub" with
        | Option.some (JsonValue.str client_id) =>
          match client_id_from_form with
          | Option.some client_id_from_form =>
            if client_id ≠ client_id_from_form then
              .error (.ClientIdMismatch client_id client_id_from_form)
            else
              .ok (.ClientAssertionJwtBearer client_id jwt)
          | Option.none => .ok (.ClientAssertionJwtBearer client_id jwt)
        | _ => .error .InvalidAssertion
    else
      match client_id_from_form with
      | Option.none => .error (.UnsupportedClientAssertion client_assertion_type)
      | Option.some _ => .error .InvalidRequest
  | Option.none, Option.none, Option.none, Option.none, Option.none =>
    .error .MissingCredentials
  | _, _, _, _, _ => .error .InvalidRequest

/-- `ClientAuthorization::from_request`: header first, then the form,
then the decision table. -/
def from_request {F : Type} (parseJwt : String → Option Jwt)
    (header : HeaderResult) (body : FormOutcome F) :
    Except ClientAuthorizationError (ClientAuthorization F) := do
  let credentials_from_header ← credentialsFromHeader header
  let (client_id_from_form, client_secret_from_form, client_assertion_type,
      client_assertion, form) ← formFields body
  let credentials ← resolveCredentials parseJwt credentials_from_header
      client_id_from_form client_secret_from_form client_assertion_type client_assertion
  return { credentials, form }

/-- True exactly when the five-tuple matches one of the five productive
arms of the decision table (the arms producing a credential, a
client-id-mismatch, an invalid-assertion, or an unsupported-assertion
outcome), mirroring their source order and the assertion-type guard;
false for the tuples that reach the missing-credentials arm or the
catch-all. -/
def matchesCredRow (credentials_from_header : Option (String × String))
    (client_id_from_form : Option String) (client_secret_from_form : Option String)
    (client_assertion_type : Option String) (client_assertion : Option String) : Bool :=
  match credentials_from_header, client_id_from_form, client_secret_from_form,
      client_assertion_type, client_assertion with
  | Option.some _, _, Option.none, Option.none, Option.none => true
  | Option.none, Option.some _, Option.some _, Option.none, Option.none => true
  | Option.none, Option.some _, Option.none, Option.none, Option.none => true
  | Option.none, client_id_from_form, Option.none, Option.some t, Option.some _ =>
    if t = JWT_BEARER_CLIENT_ASSERTION then true
    else
      match client_id_from_form with
      | Option.none => true
      | Option.some _ => false
  | _, _, _, _, _ => false

/-- True exactly for the five (credential shape, declared method)
pairings the `verify` match handles without falling to its catch-all. -/
def isAllowedPairing : Credentials → OAuthClientAuthenticationMethod → Bool
  | .None _, .None => true
  | .ClientSecretBasic _ _, .ClientSecretBasic => true
  | .ClientSecretPost _ _, .ClientSecretPost => true
  | .ClientAssertionJwtBearer _ _, .PrivateKeyJwt => true
  | .ClientAssertionJwtBearer _ _, .ClientSecretJwt => true
  | _, _ => false

/-- A concrete collaborator context: the decrypter always yields the
bytes of `"client-secret"`, the network is down, both signature checks
reject. Used to instantiate the quantified theorems below. -/
def ctx0 : VerifyCtx where
  decrypt_string := fun _ => Option.some (strBytes "client-secret")
  http_get_jwks := fun _ => .error "connection refused"
  verify_with_jwks := fun _ _ => false
  verify_with_shared_secret := fun _ _ => false

/-- A concrete JWT whose `sub` claim is the string `"client-id"`. -/
def jwt0 : Jwt := { payload := [("sub", JsonValue.str "client-id")] }

/-- A concrete JWT-parsing collaborator: only `"assertion"` parses. -/
def parse0 : String → Option Jwt :=
  fun s => if s = "assertion" then Option.some jwt0 else Option.none

/-- A concrete client record holding an encrypted secret and no JWKS. -/
def client0 : Client where
  client_id := "client-id"
  encrypted_client_secret := Option.some "enc"
  jwks := Option.none

/-- A concrete client record whose JWKS source is a URI. -/
def clientUri0 : Client where
  client_id := "client-id"
  encrypted_client_secret := Option.none
  jwks := Option.some (.JwksUri "https://example.com/jwks")

/-- C3: `is_internal` is true exactly for `DecryptionError`,
`InvalidClientConfig` and `JwksFetchFailed`, and false for
`ClientSecretMismatch`, `AuthenticationMethodMismatch` and
`InvalidAssertionSignature`. -/
theorem C3_is_internal_classification (e : CredentialsVerificationError) :
    e.is_internal = true ↔
      (e = .DecryptionError ∨ e = .InvalidClientConfig ∨
        ∃ cause, e = .JwksFetchFailed cause) := by
  cases e <;> simp [CredentialsVerificationError.is_internal]

/-- C6: a non-form content type yields all four credential fields and
the residual payload absent without failing; a schema mismatch fails
with `BadForm` preserving the underlying complaint; any other body-read
failure fails with `Internal`. -/
theorem C6_form_decode (F : Type) (err cause : String) :
    formFields (F := F) .InvalidFormContentType
        = .ok (Option.none, Option.none, Option.none, Option.none, Option.none)
    ∧ formFields (F := F) (.FailedToDeserializeForm err) = .error (.BadForm err)
    ∧ formFields (F := F) (.OtherRejection cause) = .error (.Internal cause) :=
  ⟨rfl, rfl, rfl⟩

/-- C1: with a well-formed header pair and no form secret or assertion
fields, resolution yields `ClientSecretBasic` with the header's values
when the form `client_id` is absent or equal to the header's, and fails
with the client-id-mismatch error carrying both values when the form
`client_id` is present and different. -/
theorem C1_basic_from_header {F : Type} (parseJwt : String → Option Jwt)
    (client_id client_secret : String) (cform : Option String) (inner : F) :
    ((cform = Option.none ∨ cform = Option.some client_id) →
      from_request parseJwt (.Valid client_id client_secret)
          (.Parsed cform Option.none Option.none Option.none inner)
        = .ok { credentials := .ClientSecretBasic client_id client_secret,
                form := Option.some inner })
    ∧ (∀ c, cform = Option.some c → c ≠ client_id →
      from_request parseJwt (.Valid client_id client_secret)
          (.Parsed cform Option.none Option.none Option.none inner)
        = .error (.ClientIdMismatch client_id c)) := by
  constructor
  · rintro (rfl | rfl) <;>
      simp [from_request, credentialsFromHeader, formFields, resolveCredentials,
        bind, Except.bind, pure, Except.pure]
  · rintro c rfl hne
    simp [from_request, credentialsFromHeader, formFields, resolveCredentials,
      bind, Except.bind, pure, Except.pure, Ne.symm hne]

/-- C1 witness: a concrete header pair with the same `client_id`
repeated in the form resolves to `ClientSecretBasic`. -/
theorem C1_basic_from_header_witness :
    from_request (F := Unit) parse0 (.Valid "client-id" "client-secret")
        (.Parsed (Option.some "client-id") Option.none Option.none Option.none ())
      = .ok { credentials := .ClientSecretBasic "client-id" "client-secret",
              form := Option.some () } :=
  (C1_basic_from_header parse0 "client-id" "client-secret"
      (Option.some "client-id") ()).1 (Or.inr rfl)

/-- C4: under the matching secret-based method, verification fails with
`InvalidClientConfig` when no encrypted secret is stored, with
`DecryptionError` when decryption fails, with `ClientSecretMismatch`
when the decrypted bytes differ from the presented secret's bytes, and
succeeds otherwise. -/
theorem C4_secret_verify (ctx : VerifyCtx) (client : Client)
    (client_id client_secret : String)
    (cred : Credentials) (method : OAuthClientAuthenticationMethod)
    (hpair :
      (cred = .ClientSecretBasic client_id client_secret ∧ method = .ClientSecretBasic) ∨
      (cred = .ClientSecretPost client_id client_secret ∧ method = .ClientSecretPost)) :
    (client.encrypted_client_secret = Option.none →
      cred.verify ctx method client = .error .InvalidClientConfig)
    ∧ (∀ enc, client.encrypted_client_secret = Option.some enc →
        ctx.decrypt_string enc = Option.none →
        cred.verify ctx method client = .error .DecryptionError)
    ∧ (∀ enc dec, client.encrypted_client_secret = Option.some enc →
        ctx.decrypt_string enc = Option.some dec →
        dec ≠ strBytes client_secret →
        cred.verify ctx method client = .error .ClientSecretMismatch)
    ∧ (∀ enc dec, client.encrypted_client_secret = Option.some enc →
        ctx.decrypt_string enc = Option.some dec →
        dec = strBytes client_secret →
        cred.verify ctx method client = .ok ()) := by
  rcases hpair with ⟨rfl, rfl⟩ | ⟨rfl, rfl⟩ <;>
      refine ⟨fun h0 => ?_, fun enc h0 h1 => ?_, fun enc dec h0 h1 h2 => ?_,
        fun enc dec h0 h1 h2 => ?_⟩
  · simp [Credentials.verify, h0]
  · simp [Credentials.verify, h0, h1]
  · simp [Credentials.verify, h0, h1, Ne.symm h2]
  · simp [Credentials.verify, h0, h1, h2]
  · simp [Credentials.verify, h0]
  · simp [Credentials.verify, h0, h1]
  · simp [Credentials.verify, h0, h1, Ne.symm h2]
  · simp [Credentials.verify, h0, h1, h2]

/-- C4 witness: the concrete decrypter yields exactly the bytes of the
presented secret, so verification succeeds. -/
theorem C4_secret_verify_witness :
    (Credentials.ClientSecretBasic "client-id" "client-secret").verify ctx0
        .ClientSecretBasic client0 = .ok () :=
  (C4_secret_verify ctx0 client0 "client-id" "client-secret"
      (.ClientSecretBasic "client-id" "client-secret") .ClientSecretBasic
      (Or.inl ⟨rfl, rfl⟩)).2.2.2 "enc" (strBytes "client-secret") rfl rfl rfl

/-- C5: every (credential shape, declared method) pairing outside the
five the `verify` match handles fails with
`AuthenticationMethodMismatch` regardless of the client record, and the
(`None`, `none`) pairing succeeds with no further check. -/
theorem C5_method_mismatch (ctx : VerifyCtx) (cred : Credentials)
    (method : OAuthClientAuthenticationMethod) (client : Client) :
    (isAllowedPairing cred method = false →
      cred.verify ctx method client = .error .AuthenticationMethodMismatch)
    ∧ (∀ cid, (Credentials.None cid).verify ctx .None client = .ok ()) := by
  constructor
  · cases cred <;> cases method <;>
      simp [isAllowedPairing, Credentials.verify]
  · intro cid
    rfl

/-- C5 witness: a client declared for `private_key_jwt` presenting a
basic secret credential is rejected even though its record stores an
encrypted secret. -/
theorem C5_method_mismatch_witness :
    (Credentials.ClientSecretBasic "client-id" "client-secret").verify ctx0
        .PrivateKeyJwt client0 = .error .AuthenticationMethodMismatch :=
  (C5_method_mismatch ctx0 (.ClientSecretBasic "client-id" "client-secret")
      .PrivateKeyJwt client0).1 rfl

/-- C10: `verify` reads only `encrypted_client_secret` and `jwks` from
the client record: two records agreeing on those two fields produce the
same result for every credential and method, whatever their
`client_id`. -/
theorem C10_identity_independent (ctx : VerifyCtx) (cred : Credentials)
    (method : OAuthClientAuthenticationMethod) (c1 c2 : Client)
    (hsec : c1.encrypted_client_secret = c2.encrypted_client_secret)
    (hjwks : c1.jwks = c2.jwks) :
    cred.verify ctx method c1 = cred.verify ctx method c2 := by
  cases cred <;> cases method <;>
    simp [Credentials.verify, hsec, hjwks]

/-- C10 witness: two concrete records differing only in `client_id`
verify identically. -/
theorem C10_identity_independent_witness :
    (Credentials.ClientSecretBasic "a" "client-secret").verify ctx0
        .ClientSecretBasic client0
      = (Credentials.ClientSecretBasic "a" "client-secret").verify ctx0
        .ClientSecretBasic { client0 with client_id := "b" } :=
  C10_identity_independent ctx0 (.ClientSecretBasic "a" "client-secret")
    .ClientSecretBasic client0 { client0 with client_id := "b" } rfl rfl

/-- C2: with no header, no form secret, the JWT-bearer assertion type
and an assertion present: a parse failure yields `InvalidAssertion`; a
missing or non-string `sub` claim yields `InvalidAssertion`; a form
`client_id` differing from `sub` yields the client-id-mismatch error;
otherwise the result is `ClientAssertionJwtBearer` with `client_id`
equal to the `sub` claim. -/
theorem C2_jwt_bearer {F : Type} (parseJwt : String → Option Jwt)
    (cform : Option String) (assertion : String) (inner : F) :
    (parseJwt assertion = Option.none →
      from_request parseJwt .Missing
          (.Parsed cform Option.none (Option.some JWT_BEARER_CLIENT_ASSERTION)
            (Option.some assertion) inner)
        = .error .InvalidAssertion)
    ∧ (∀ jwt, parseJwt assertion = Option.some jwt →
        (∀ s, jwt.payload.lookup "sub" ≠ Option.some (JsonValue.str s)) →
        from_request parseJwt .Missing
            (.Parsed cform Option.none (Option.some JWT_BEARER_CLIENT_ASSERTION)
              (Option.some assertion) inner)
          = .error .InvalidAssertion)
    ∧ (∀ jwt s c, parseJwt assertion = Option.some jwt →
        jwt.payload.lookup "sub" = Option.some (JsonValue.str s) →
        cform = Option.some c → c ≠ s →
        from_request parseJwt .Missing
            (.Parsed cform Option.none (Option.some JWT_BEARER_CLIENT_ASSERTION)
              (Option.some assertion) inner)
          = .error (.ClientIdMismatch s c))
    ∧ (∀ jwt s, parseJwt assertion = Option.some jwt →
        jwt.payload.lookup "sub" = Option.some (JsonValue.str s) →
        (cform = Option.none ∨ cform = Option.some s) →
        from_request parseJwt .Missing
            (.Parsed cform Option.none (Option.some JWT_BEARER_CLIENT_ASSERTION)
              (Option.some assertion) inner)
          = .ok { credentials := .ClientAssertionJwtBearer s jwt,
                  form := Option.some inner }) := by
  refine ⟨fun hp => ?_, fun jwt hp hsub => ?_, fun jwt s c hp hsub hc hne => ?_,
    fun jwt s hp hsub hc => ?_⟩
  · cases cform <;>
      simp [from_request, credentialsFromHeader, formFields, resolveCredentials,
        bind, Except.bind, pure, Except.pure, hp]
  · cases hl : jwt.payload.lookup "sub" with
    | none =>
      cases cform <;>
        simp [from_request, credentialsFromHeader, formFields, resolveCredentials,
          bind, Except.bind, pure, Except.pure, hp, hl]
    | some v =>
      cases v with
      | str s => exact absurd hl (hsub s)
      | null =>
        cases cform <;>
          simp [from_request, credentialsFromHeader, formFields, resolveCredentials,
            bind, Except.bind, pure, Except.pure, hp, hl]
      | bool b =>
        cases cform <;>
          simp [from_request, credentialsFromHeader, formFields, resolveCredentials,
            bind, Except.bind, pure, Except.pure, hp, hl]
      | num n =>
        cases cform <;>
          simp [from_request, credentialsFromHeader, formFields, resolveCredentials,
            bind, Except.bind, pure, Except.pure, hp, hl]
  · subst hc
    simp [from_request, credentialsFromHeader, formFields, resolveCredentials,
      bind, Except.bind, pure, Except.pure, hp, hsub, Ne.symm hne]
  · rcases hc with rfl | rfl <;>
      simp [from_request, credentialsFromHeader, formFields, resolveCredentials,
        bind, Except.bind, pure, Except.pure, hp, hsub]

/-- C2 witness: a concrete assertion parsing to a JWT whose `sub` claim
is `"client-id"` resolves to `ClientAssertionJwtBearer`. -/
theorem C2_jwt_bearer_witness :
    from_request (F := Unit) parse0 .Missing
        (.Parsed Option.none Option.none (Option.some JWT_BEARER_CLIENT_ASSERTION)
          (Option.some "assertion") ())
      = .ok { credentials := .ClientAssertionJwtBearer "client-id" jwt0,
              form := Option.some () } :=
  (C2_jwt_bearer parse0 Option.none "assertion" ()).2.2.2 jwt0 "client-id"
    (by simp [parse0]) (by simp [jwt0, List.lookup]) (Or.inl rfl)

/-- The decision table never produces the header-specific error: every
outcome of `resolveCredentials` differs from `InvalidHeader`. -/
theorem resolveCredentials_ne_InvalidHeader (parseJwt : String → Option Jwt)
    (h : Option (String × String)) (cid cs cat ca : Option String) :
    resolveCredentials parseJwt h cid cs cat ca ≠ .error .InvalidHeader := by
  rcases h with _ | ⟨hid, hsec⟩ <;> rcases cid with _ | cid <;> rcases cs with _ | cs <;>
    rcases cat with _ | t <;> rcases ca with _ | a <;>
      simp only [resolveCredentials] <;>
      (repeat' split) <;> simp

/-- C7: a malformed authentication header fails with `InvalidHeader`
whatever the body holds, and a missing header never produces that
error. -/
theorem C7_header_precedence {F : Type} (parseJwt : String → Option Jwt)
    (body : FormOutcome F) :
    from_request parseJwt .Malformed body = .error .InvalidHeader
    ∧ from_request parseJwt .Missing body ≠ .error .InvalidHeader := by
  constructor
  · rfl
  · cases body with
    | Parsed a b c d inner =>
      cases hres : resolveCredentials parseJwt Option.none a b c d with
      | ok cr =>
        simp [from_request, credentialsFromHeader, formFields, bind, Except.bind,
          pure, Except.pure, hres]
      | error e =>
        simp [from_request, credentialsFromHeader, formFields, bind, Except.bind,
          pure, Except.pure, hres]
        intro hcon
        rw [hcon] at hres
        exact resolveCredentials_ne_InvalidHeader parseJwt Option.none a b c d hres
    | InvalidFormContentType =>
      simp [from_request, credentialsFromHeader, formFields, bind, Except.bind,
        pure, Except.pure, resolveCredentials]
    | FailedToDeserializeForm err =>
      simp [from_request, credentialsFromHeader, formFields, bind, Except.bind,
        pure, Except.pure]
    | OtherRejection cause =>
      simp [from_request, credentialsFromHeader, formFields, bind, Except.bind,
        pure, Except.pure]

/-- C7 witness: a malformed header with a non-form body fails with
`InvalidHeader`. -/
theorem C7_header_precedence_witness :
    from_request (F := Unit) parse0 .Malformed .InvalidFormContentType
      = .error .InvalidHeader :=
  (C7_header_precedence parse0 .InvalidFormContentType).1

/-- C8: a five-tuple matching none of the decision table's productive
arms fails with `MissingCredentials` when all five values are absent
and with the catch-all `InvalidRequest` otherwise. -/
theorem C8_unmatched (parseJwt : String → Option Jwt)
    (h : Option (String × String)) (cid cs cat ca : Option String)
    (hrow : matchesCredRow h cid cs cat ca = false) :
    ((h = Option.none ∧ cid = Option.none ∧ cs = Option.none ∧ cat = Option.none ∧
        ca = Option.none) →
      resolveCredentials parseJwt h cid cs cat ca = .error .MissingCredentials)
    ∧ (¬(h = Option.none ∧ cid = Option.none ∧ cs = Option.none ∧ cat = Option.none ∧
        ca = Option.none) →
      resolveCredentials parseJwt h cid cs cat ca = .error .InvalidRequest) := by
  constructor
  · rintro ⟨rfl, rfl, rfl, rfl, rfl⟩
    rfl
  · intro hall
    rcases h with _ | ⟨hid, hsec⟩ <;> rcases cid with _ | cid <;> rcases cs with _ | cs <;>
      rcases cat with _ | t <;> rcases ca with _ | a <;>
        simp_all [matchesCredRow, resolveCredentials]

/-- C8 witness: a header secret pair together with a form
`client_secret` falls into the catch-all `InvalidRequest`. -/
theorem C8_unmatched_witness :
    resolveCredentials parse0 (Option.some ("client-id", "client-secret"))
        Option.none (Option.some "other-secret") Option.none Option.none
      = .error .InvalidRequest :=
  (C8_unmatched parse0 (Option.some ("client-id", "client-secret"))
      Option.none (Option.some "other-secret") Option.none Option.none rfl).2
    (by simp)

/-- C9: an inline JWKS source is returned directly and cannot fail; a
URI source whose fetch fails makes `private_key_jwt` verification fail
with `JwksFetchFailed` wrapping the cause. -/
theorem C9_jwks (ctx : VerifyCtx) (j : PublicJsonWebKeySet) (u cause : String) :
    fetch_jwks ctx (.Jwks j) = .ok j
    ∧ (∀ (cid : String) (jwt : Jwt) (client : Client),
        client.jwks = Option.some (.JwksUri u) →
        ctx.http_get_jwks u = .error cause →
        (Credentials.ClientAssertionJwtBearer cid jwt).verify ctx
            .PrivateKeyJwt client
          = .error (.JwksFetchFailed cause)) := by
  constructor
  · rfl
  · intro cid jwt client hjwks hfetch
    simp [Credentials.verify, hjwks, fetch_jwks, hfetch]

/-- C9 witness: a concrete client with a JWKS URI and a failing network
fetch yields `JwksFetchFailed` with the fetch's cause. -/
theorem C9_jwks_witness :
    (Credentials.ClientAssertionJwtBearer "client-id" jwt0).verify ctx0
        .PrivateKeyJwt clientUri0 = .error (.JwksFetchFailed "connection refused") :=
  (C9_jwks ctx0 { keys := [] } "https://example.com/jwks" "connection refused").2
    "client-id" jwt0 clientUri0 rfl rfl

end ClientAuthz
